import Mathlib

/-!
# Verification of the ScenicView flight-sun analysis backend

Shallow embedding of the ScenicView backend services
(`flightPathService.ts`, `sunPositionService.ts`,
`seatRecommendationService.ts`, `enhancedSunAnalysisService.ts`,
`routeHandler.ts`) over the real numbers, together with proofs and
refutations of the specification claims C1–C10.

Modelling conventions:
* JavaScript `number` is modelled as `ℝ`; division by zero is the Lean
  total-division convention (noted wherever a claim depends on it).
* Timestamps (`Date`, ISO strings) are modelled as milliseconds since the
  epoch, as a real number (`Date.getTime()`), which is what all the time
  arithmetic in the source operates on.
* `Math.atan2`, the JS `%` remainder (truncated, sign of the dividend) and
  `Math.round` are modelled explicitly below as `jsAtan2`, `jsMod`,
  `jsRound`.
* `SunCalc.getPosition` is an external collaborator; it is modelled as a
  parameter `engine : SunEngine` returning `(azimuth, altitude)` in
  radians, exactly the fields the source reads.
-/

namespace ScenicView

open Real

/-- JS truncation toward zero, as used by the JS `%` operator. -/
noncomputable def jsTrunc (x : ℝ) : ℤ :=
  if 0 ≤ x then ⌊x⌋ else ⌈x⌉

/-- The JS `%` remainder operator on numbers: `a % n = a - n * trunc (a / n)`
(result has the sign of the dividend). -/
noncomputable def jsMod (a n : ℝ) : ℝ :=
  a - n * jsTrunc (a / n)

/-- JS `Math.atan2 y x`, case-split exactly as the IEEE definition for
finite inputs (atan2(0,0) = 0 for positive zero, the only zero of `ℝ`). -/
noncomputable def jsAtan2 (y x : ℝ) : ℝ :=
  if 0 < x then arctan (y / x)
  else if x < 0 ∧ 0 ≤ y then arctan (y / x) + π
  else if x < 0 ∧ y < 0 then arctan (y / x) - π
  else if x = 0 ∧ 0 < y then π / 2
  else if x = 0 ∧ y < 0 then -(π / 2)
  else 0

/-- JS `Math.round` (half-up, implemented as `⌊x + 1/2⌋`). -/
noncomputable def jsRound (x : ℝ) : ℝ :=
  ((⌊x + 1 / 2⌋ : ℤ) : ℝ)

lemma jsTrunc_of_nonneg {x : ℝ} (h : 0 ≤ x) : jsTrunc x = ⌊x⌋ := by
  simp [jsTrunc, h]

lemma jsMod_eq_self {a n : ℝ} (hn : 0 < n) (h0 : 0 ≤ a) (h1 : a < n) :
    jsMod a n = a := by
  have hdiv0 : 0 ≤ a / n := div_nonneg h0 hn.le
  have hdiv1 : a / n < 1 := (div_lt_one hn).mpr h1
  have hfl : ⌊a / n⌋ = 0 := by
    rw [Int.floor_eq_zero_iff]
    exact ⟨hdiv0, hdiv1⟩
  rw [jsMod, jsTrunc_of_nonneg hdiv0, hfl]
  simp

lemma jsMod_eq_sub {a n : ℝ} (hn : 0 < n) (h0 : n ≤ a) (h1 : a < 2 * n) :
    jsMod a n = a - n := by
  have hdiv0 : (1 : ℝ) ≤ a / n := (one_le_div hn).mpr h0
  have hdiv1 : a / n < 2 := (div_lt_iff₀ hn).mpr (by linarith)
  have hfl : ⌊a / n⌋ = 1 := by
    rw [Int.floor_eq_iff]
    constructor
    · exact_mod_cast hdiv0
    · push_cast
      linarith
  rw [jsMod, jsTrunc_of_nonneg (by linarith), hfl]
  ring

/-- The function `jsAtan2` always lands in `(-π, π]`. -/
lemma jsAtan2_mem (y x : ℝ) : -π < jsAtan2 y x ∧ jsAtan2 y x ≤ π := by
  have hπ : 0 < π := pi_pos
  unfold jsAtan2
  split_ifs with h1 h2 h3 h4 h5
  · exact ⟨by nlinarith [neg_pi_div_two_lt_arctan (y / x)],
      le_of_lt (by nlinarith [arctan_lt_pi_div_two (y / x)])⟩
  · obtain ⟨hx, hy⟩ := h2
    have hd : y / x ≤ 0 := div_nonpos_of_nonneg_of_nonpos hy hx.le
    have h0 : arctan (y / x) ≤ 0 := by
      rcases lt_or_eq_of_le hd with h | h
      · exact le_of_lt (by simpa using arctan_strictMono h)
      · simp [h, arctan_zero]
    exact ⟨by nlinarith [neg_pi_div_two_lt_arctan (y / x)], by linarith⟩
  · obtain ⟨hx, hy⟩ := h3
    have hd : 0 < y / x := div_pos_of_neg_of_neg hy hx
    have h0 : 0 < arctan (y / x) := by simpa using arctan_strictMono hd
    exact ⟨by linarith, by nlinarith [arctan_lt_pi_div_two (y / x)]⟩
  · exact ⟨by linarith, by linarith⟩
  · exact ⟨by linarith, by linarith⟩
  · exact ⟨by linarith, by linarith⟩

/-! ## flightPathService.ts -/

/-- JS `.toUpperCase()` as used on the (ASCII) airport codes: uppercases
every character.  (Same mapping as `String.toUpper`, but defined by
structural recursion over the character list so that concrete lookups
reduce in proofs.) -/
def jsToUpperCase (s : String) : String :=
  ⟨s.data.map Char.toUpper⟩

/-- The static airport coordinate table (`AIRPORTS` in `flightPathService.ts`),
`code ↦ (latitude, longitude)` in degrees. -/
noncomputable def AIRPORTS : List (String × ℝ × ℝ) :=
  [("DEL", 28.5562, 77.1000), ("JAI", 26.8282, 75.8056),
   ("BLR", 12.9716, 77.5946), ("BOM", 19.0896, 72.8656),
   ("BHO", 23.2875, 77.3374), ("LKO", 26.7606, 80.8893),
   ("JFK", 40.6413, -73.7781), ("LHR", 51.4700, -0.4543),
   ("NRT", 35.7720, 140.3929), ("LAX", 33.9425, -118.4081),
   ("DXB", 25.2532, 55.3657), ("SIN", 1.3644, 103.9915),
   ("SYD", -33.9399, 151.1753), ("CDG", 49.0097, 2.5479),
   ("FRA", 50.0379, 8.5622), ("HKG", 22.3080, 113.9185),
   ("ICN", 37.4602, 126.4407), ("BKK", 13.6900, 100.7501),
   ("DOH", 25.2731, 51.6080), ("IST", 41.2753, 28.7519),
   ("MAD", 40.4839, -3.5680)]

/-- A waypoint of the 50-km path sampler (`Waypoint` in
`flightPathService.ts`); `time` is the instant in epoch milliseconds
(the source stores its ISO-string rendering). -/
structure Waypoint where
  lat : ℝ
  lon : ℝ
  time : ℝ

instance : Inhabited Waypoint := ⟨⟨0, 0, 0⟩⟩

/-- Embedding of `calculateGreatCircle` from `flightPathService.ts`: slerp between two
(lat, lon)-degree points at `fraction`.  Note: the source has NO guard on
`fraction` and NO short-circuit for identical endpoints (`d = 0`); there
the weights divide by `sin 0 = 0` (JS: `NaN`, here: Lean's total `x / 0 = 0`). -/
noncomputable def calculateGreatCircle (p q : ℝ × ℝ) (fraction : ℝ) : ℝ × ℝ :=
  let lat1 := p.1 * π / 180
  let lon1 := p.2 * π / 180
  let lat2 := q.1 * π / 180
  let lon2 := q.2 * π / 180
  let d := 2 * arcsin (Real.sqrt (Real.sin ((lat2 - lat1) / 2) ^ 2 +
    Real.cos lat1 * Real.cos lat2 * Real.sin ((lon2 - lon1) / 2) ^ 2))
  let A := Real.sin ((1 - fraction) * d) / Real.sin d
  let B := Real.sin (fraction * d) / Real.sin d
  let x := A * Real.cos lat1 * Real.cos lon1 + B * Real.cos lat2 * Real.cos lon2
  let y := A * Real.cos lat1 * Real.sin lon1 + B * Real.cos lat2 * Real.sin lon2
  let z := A * Real.sin lat1 + B * Real.sin lat2
  let lat := jsAtan2 z (Real.sqrt (x * x + y * y))
  let lon := jsAtan2 y x
  (lat * 180 / π, lon * 180 / π)

/-- The great-circle distance computed inline in `calculateFlightPath`
(`flightPathService.ts` lines 72–81): `6371 * acos(...)` in kilometres. -/
noncomputable def distanceKm (fromCoords toCoords : ℝ × ℝ) : ℝ :=
  let lat1 := fromCoords.1 * π / 180
  let lon1 := fromCoords.2 * π / 180
  let lat2 := toCoords.1 * π / 180
  let lon2 := toCoords.2 * π / 180
  6371 * arccos (Real.sin lat1 * Real.sin lat2 +
    Real.cos lat1 * Real.cos lat2 * Real.cos (lon2 - lon1))

/-- The count `numWaypoints` of `calculateFlightPath`: `Math.max(5, Math.floor(distance / 50))`. -/
noncomputable def numWaypoints (fromCoords toCoords : ℝ × ℝ) : ℤ :=
  max 5 ⌊distanceKm fromCoords toCoords / 50⌋

/-- The fractions `i / numWaypoints` for `i = 0 .. numWaypoints` produced by
the waypoint loop of `calculateFlightPath` (the loop bound is inclusive). -/
noncomputable def pathFractions (fromCoords toCoords : ℝ × ℝ) : List ℝ :=
  (List.range ((numWaypoints fromCoords toCoords).toNat + 1)).map
    (fun (i : ℕ) => (i : ℝ) / ((numWaypoints fromCoords toCoords : ℤ) : ℝ))

/-- The waypoint list built by the loop of `calculateFlightPath`
(lines 83–101): position by `calculateGreatCircle`, time by constant
800 km/h ground speed (`flightDuration` hours → milliseconds). -/
noncomputable def flightWaypoints (fromCoords toCoords : ℝ × ℝ)
    (departureTime : ℝ) : List Waypoint :=
  (pathFractions fromCoords toCoords).map (fun fraction =>
    let pos := calculateGreatCircle fromCoords toCoords fraction
    let flightDuration := distanceKm fromCoords toCoords / 800
    { lat := pos.1, lon := pos.2,
      time := departureTime + fraction * flightDuration * 60 * 60 * 1000 })

/-- Embedding of `calculateFlightPath` from `flightPathService.ts`: case-insensitive
airport lookup (`.toUpperCase()`), throwing (modelled as `Except.error`)
when either code is unknown. -/
noncomputable def calculateFlightPath (fromAirport toAirport : String)
    (departureTime : ℝ) : Except String (List Waypoint) :=
  match AIRPORTS.lookup (jsToUpperCase fromAirport),
      AIRPORTS.lookup (jsToUpperCase toAirport) with
  | some fromCoords, some toCoords =>
      .ok (flightWaypoints fromCoords toCoords departureTime)
  | _, _ => .error ("Airport not found: " ++ fromAirport ++ " or " ++ toAirport)

/-! ## sunPositionService.ts -/

/-- The external-collaborator contract of `SunCalc.getPosition`:
`(time in epoch ms, lat, lon) ↦ (azimuth, altitude)`, both in RADIANS,
azimuth in SunCalc's astronomical convention (0 = South, positive westward). -/
def SunEngine : Type := ℝ → ℝ → ℝ → ℝ × ℝ

/-- Embedding of `SunPosition` from `sunPositionService.ts`. -/
structure SunPosition where
  lat : ℝ
  lon : ℝ
  time : ℝ
  azimuth : ℝ
  elevation : ℝ

/-- Embedding of `calculateSunPositions` from `sunPositionService.ts`: converts the raw
SunCalc radians to degrees.  NOTE (claim C1): no `+180°` azimuth-frame
conversion is performed — the stored azimuth is SunCalc's South-referenced
azimuth, merely scaled to degrees.  The `departureTime` parameter is unused
in the source as well. -/
noncomputable def calculateSunPositions (engine : SunEngine)
    (waypoints : List Waypoint) (departureTime : ℝ) : List SunPosition :=
  waypoints.map (fun waypoint =>
    let sunPosition := engine waypoint.time waypoint.lat waypoint.lon
    { lat := waypoint.lat, lon := waypoint.lon, time := waypoint.time,
      azimuth := sunPosition.1 * (180 / π),
      elevation := sunPosition.2 * (180 / π) })

/-- Modelled from the spec's words (§4.3, claim C1): the variant of
`calculateSunPositions` the claim describes, in which the South-referenced
astronomical azimuth is converted by `+180°` to a North-referenced map
bearing before being stored.  (The source does NOT do this.) -/
noncomputable def calculateSunPositionsClaim (engine : SunEngine)
    (waypoints : List Waypoint) (departureTime : ℝ) : List SunPosition :=
  waypoints.map (fun waypoint =>
    let sunPosition := engine waypoint.time waypoint.lat waypoint.lon
    { lat := waypoint.lat, lon := waypoint.lon, time := waypoint.time,
      azimuth := sunPosition.1 * (180 / π) + 180,
      elevation := sunPosition.2 * (180 / π) })

/-! ## seatRecommendationService.ts -/

/-- Embedding of `calculateBearing` from `seatRecommendationService.ts`: initial
great-circle bearing between two points, normalized to `[0, 360)` with the
JS `%` operator. -/
noncomputable def calculateBearing (lat1 lon1 lat2 lon2 : ℝ) : ℝ :=
  let dLon := (lon2 - lon1) * π / 180
  let lat1Rad := lat1 * π / 180
  let lat2Rad := lat2 * π / 180
  let y := Real.sin dLon * Real.cos lat2Rad
  let x := Real.cos lat1Rad * Real.sin lat2Rad -
    Real.sin lat1Rad * Real.cos lat2Rad * Real.cos dLon
  let bearing := jsAtan2 y x * 180 / π
  jsMod (bearing + 360) 360

/-- Embedding of `getSeatRecommendation` from `seatRecommendationService.ts`:
filter visible-sun samples, average their (raw) azimuths, compare with the
flight bearing, decide left/right. -/
noncomputable def getSeatRecommendation (sunPositions : List SunPosition)
    (flightPath : List Waypoint) : String :=
  let visibleSunPositions := sunPositions.filter
    (fun pos => decide (pos.elevation > 0 ∧ pos.elevation < 80))
  if visibleSunPositions.length = 0 then
    "No optimal window seat - sun will not be visible during flight"
  else if flightPath.length < 2 then
    "Unable to determine flight direction"
  else
    let startPoint := flightPath.headI
    let endPoint := flightPath.getLastD default
    let flightBearing :=
      calculateBearing startPoint.lat startPoint.lon endPoint.lat endPoint.lon
    let avgAzimuth := (visibleSunPositions.foldl (fun sum pos => sum + pos.azimuth) 0) /
      (visibleSunPositions.length : ℝ)
    let normalizedSunAzimuth := jsMod (jsMod avgAzimuth 360 + 360) 360
    let rel0 := normalizedSunAzimuth - flightBearing
    let rel1 := if rel0 < 0 then rel0 + 360 else rel0
    let rel2 := if rel1 > 360 then rel1 - 360 else rel1
    if 0 ≤ rel2 ∧ rel2 ≤ 180 then "left" else "right"

/-! ## enhancedSunAnalysisService.ts -/

/-- The string-union `'NIGHT' | 'TWILIGHT' | 'GOLDEN_HOUR' | 'DAYLIGHT'`
of `enhancedSunAnalysisService.ts`. -/
inductive SunConditionKind where
  | NIGHT
  | TWILIGHT
  | GOLDEN_HOUR
  | DAYLIGHT
deriving DecidableEq, Repr

/-- The `SunCondition` sample interface of `enhancedSunAnalysisService.ts`
(one solar sample of the 15-minute timeline).  The `timeString` field is
pure locale formatting of `time` and is not modelled. -/
structure SunCondition where
  time : ℝ
  lat : ℝ
  lon : ℝ
  sunElevation : ℝ
  sunAzimuth : ℝ
  condition : SunConditionKind
  progressPercent : ℝ

/-- The `SunEvent` interface (sunrise/sunset transition).  The `location`
and `timeString` fields are string formatting of `lat`/`lon`/`time` and are
not modelled separately. -/
structure SunEvent where
  time : ℝ
  lat : ℝ
  lon : ℝ
  progressPercent : ℝ

/-- Embedding of `classifySunCondition` from `enhancedSunAnalysisService.ts`
(lines 185–190). -/
noncomputable def classifySunCondition (elevation : ℝ) : SunConditionKind :=
  if elevation < 0 then .NIGHT
  else if elevation < 6 then .TWILIGHT
  else if elevation < 10 then .GOLDEN_HOUR
  else .DAYLIGHT

/-- Embedding of `interpolateGreatCircle` from `enhancedSunAnalysisService.ts`
(lines 124–153).  Unlike `calculateGreatCircle`, it guards
`fraction ≤ 0` / `fraction ≥ 1` before any trigonometry. -/
noncomputable def interpolateGreatCircle (p q : ℝ × ℝ) (fraction : ℝ) : ℝ × ℝ :=
  if fraction ≤ 0 then p
  else if fraction ≥ 1 then q
  else
    let lat1 := p.1 * π / 180
    let lon1 := p.2 * π / 180
    let lat2 := q.1 * π / 180
    let lon2 := q.2 * π / 180
    let d := 2 * arcsin (Real.sqrt (Real.sin ((lat1 - lat2) / 2) ^ 2 +
      Real.cos lat1 * Real.cos lat2 * Real.sin ((lon1 - lon2) / 2) ^ 2))
    let a := Real.sin ((1 - fraction) * d) / Real.sin d
    let b := Real.sin (fraction * d) / Real.sin d
    let x := a * Real.cos lat1 * Real.cos lon1 + b * Real.cos lat2 * Real.cos lon2
    let y := a * Real.cos lat1 * Real.sin lon1 + b * Real.cos lat2 * Real.sin lon2
    let z := a * Real.sin lat1 + b * Real.sin lat2
    (jsAtan2 z (Real.sqrt (x * x + y * y)) * 180 / π, jsAtan2 y x * 180 / π)

/-- A sampling point of `generateFlightSamplingPoints`. -/
structure SamplingPoint where
  time : ℝ
  lat : ℝ
  lon : ℝ
  progressPercent : ℝ

/-- Embedding of `generateFlightSamplingPoints` (lines 92–119): one sample every 15
minutes from departure to departure + duration (inclusive loop bound, so
`⌊duration·60/15⌋ + 1` points for a nonnegative duration). -/
noncomputable def generateFlightSamplingPoints (fromCoords toCoords : ℝ × ℝ)
    (startTime duration : ℝ) : List SamplingPoint :=
  let totalMinutes := duration * 60
  (List.range (⌊totalMinutes / 15⌋.toNat + 1)).map (fun k =>
    let minutes : ℝ := 15 * k
    let fraction := minutes / totalMinutes
    let position := interpolateGreatCircle fromCoords toCoords fraction
    { time := startTime + minutes * 60 * 1000,
      lat := position.1, lon := position.2,
      progressPercent := fraction * 100 })

/-- Embedding of `analyzeSunConditions` (lines 158–180): per-point solar position in
degrees plus the elevation-bucket classification. -/
noncomputable def analyzeSunConditions (engine : SunEngine)
    (samplingPoints : List SamplingPoint) : List SunCondition :=
  samplingPoints.map (fun point =>
    let sunPos := engine point.time point.lat point.lon
    let elevation := sunPos.2 * (180 / π)
    let azimuth := sunPos.1 * (180 / π)
    { time := point.time, lat := point.lat, lon := point.lon,
      sunElevation := elevation, sunAzimuth := azimuth,
      condition := classifySunCondition elevation,
      progressPercent := point.progressPercent })

/-- The mutable `events` accumulator object of `detectSunEvents`
(lines 196–206), with its initial values as defaults. -/
structure SunEvents where
  sunrise : Option SunEvent := none
  sunset : Option SunEvent := none
  willSeeNight : Bool := false
  willSeeSunrise : Bool := false
  willSeeSunset : Bool := false
  willSeeGoldenHour : Bool := false
  nightMinutes : ℝ := 0
  dayMinutes : ℝ := 0
  goldenHourMinutes : ℝ := 0

/-- The per-sample duration counting of the `detectSunEvents` loop
(lines 214–227); `intervalMinutes = 15`. -/
def countCondition (current : SunCondition) (e : SunEvents) : SunEvents :=
  match current.condition with
  | .NIGHT => { e with willSeeNight := true, nightMinutes := e.nightMinutes + 15 }
  | .DAYLIGHT => { e with dayMinutes := e.dayMinutes + 15 }
  | .GOLDEN_HOUR => { e with
      willSeeGoldenHour := true
      goldenHourMinutes := e.goldenHourMinutes + 15 }
  | .TWILIGHT => { e with willSeeNight := true, nightMinutes := e.nightMinutes + 15 }

/-- The event payload built at a detected transition (fields of the
`events.sunrise` / `events.sunset` assignment). -/
def mkSunEvent (c : SunCondition) : SunEvent :=
  ⟨c.time, c.lat, c.lon, c.progressPercent⟩

/-- The transition detection of the `detectSunEvents` loop for `i > 0`
(lines 230–260).  NOTE (claim C3): each below→above crossing OVERWRITES
`sunrise` (and each above→below crossing overwrites `sunset`) — there is no
first-occurrence guard in the source. -/
noncomputable def detectTransitions (prev current : SunCondition)
    (e : SunEvents) : SunEvents :=
  let e1 := if prev.sunElevation ≤ 0 ∧ current.sunElevation > 0 then
      { e with sunrise := some (mkSunEvent current), willSeeSunrise := true }
    else e
  if prev.sunElevation > 0 ∧ current.sunElevation ≤ 0 then
    { e1 with sunset := some (mkSunEvent current), willSeeSunset := true }
  else e1

/-- The `detectSunEvents` loop from index 1 onward, threading the previous
sample. -/
noncomputable def detectGo (prev : SunCondition) (e : SunEvents) :
    List SunCondition → SunEvents
  | [] => e
  | c :: rest => detectGo c (detectTransitions prev c (countCondition c e)) rest

/-- Embedding of `detectSunEvents` (lines 195–264): iteration 0 only counts; iterations
`i > 0` count and check transitions against sample `i - 1`. -/
noncomputable def detectSunEvents : List SunCondition → SunEvents
  | [] => {}
  | c :: rest => detectGo c (countCondition c {}) rest

/-- The `'left' | 'right' | 'either'` seat-side union. -/
inductive Side where
  | left
  | right
  | either
deriving DecidableEq, Repr

/-- Embedding of `determineSeatSideForSunrise` (lines 365–390): quadrant rule on the
flight bearing.  The bearing is computed inline in the source with exactly
the formula of `calculateBearing`; the lookups are NOT upper-cased here, and
an unknown code makes the JS read `undefined[0]` and throw — modelled as
`none`. -/
noncomputable def determineSeatSideForSunrise (fromAirport toAirport : String) :
    Option Side :=
  match AIRPORTS.lookup fromAirport, AIRPORTS.lookup toAirport with
  | some fromCoords, some toCoords =>
    let bearing := calculateBearing fromCoords.1 fromCoords.2 toCoords.1 toCoords.2
    some (if 315 ≤ bearing ∨ bearing < 45 then Side.right
      else if 45 ≤ bearing ∧ bearing < 135 then Side.right
      else if 135 ≤ bearing ∧ bearing < 225 then Side.left
      else if 225 ≤ bearing ∧ bearing < 315 then Side.left
      else Side.either)
  | _, _ => none

/-- Embedding of `determineSeatSideForSunset` (lines 395–420): same quadrants, mirrored
sides. -/
noncomputable def determineSeatSideForSunset (fromAirport toAirport : String) :
    Option Side :=
  match AIRPORTS.lookup fromAirport, AIRPORTS.lookup toAirport with
  | some fromCoords, some toCoords =>
    let bearing := calculateBearing fromCoords.1 fromCoords.2 toCoords.1 toCoords.2
    some (if 315 ≤ bearing ∨ bearing < 45 then Side.left
      else if 45 ≤ bearing ∧ bearing < 135 then Side.left
      else if 135 ≤ bearing ∧ bearing < 225 then Side.right
      else if 225 ≤ bearing ∧ bearing < 315 then Side.right
      else Side.either)
  | _, _ => none

/-- The summary strings pushed by `generateFlightSunReport`, modelled as
tagged items carrying their numeric payloads (the source interpolates these
into display strings). -/
inductive SummaryItem where
  | bothSunriseAndSunset
  | sunriseTimeBoth (time : Option ℝ)
  | sunsetTimeBoth (time : Option ℝ)
  | nightStargazingAlso (nightHours : ℝ)
  | sunriseWillSee (time : Option ℝ)
  | sunsetWillSee (time : Option ℝ)
  | nightStargazing (nightHours : ℝ)
  | goldenHourGlow (goldenHours : ℝ)
  | brightDaylight

/-- The recommendation strings pushed by `generateFlightSunReport`,
as tags. -/
inductive RecTag where
  | fullCycleTreat
  | windowSeat (side : Side)
  | nightPhotography
  | scenicDaylight
  | bringCamera
  | earlyCheckIn

/-- Embedding of `FlightSunAnalysis` from `enhancedSunAnalysisService.ts`. -/
structure FlightSunAnalysis where
  willSeeSunrise : Bool
  willSeeSunset : Bool
  willSeeNight : Bool
  willSeeGoldenHour : Bool
  sunrise : Option SunEvent
  sunset : Option SunEvent
  summary : List SummaryItem
  recommendations : List RecTag
  seatSuggestion : Side
  timeline : List SunCondition
  nightDuration : ℝ
  dayDuration : ℝ

/-- Embedding of `generateFlightSunReport` (lines 269–360).  The report's
`willSeeNight` / `nightDuration` fields are copied from `events` at lines
277–293, BEFORE the "CRITICAL FIX" (lines 303–319) mutates the local
`events` object; the patched values reach only the later summary lines,
never the report's boolean/duration fields. -/
noncomputable def generateFlightSunReport (events : SunEvents)
    (sunAnalysis : List SunCondition) (fromAirport toAirport : String) :
    FlightSunAnalysis :=
  -- lines 276–293: initial report from the (unpatched) events
  let report0 : FlightSunAnalysis := {
    willSeeSunrise := events.willSeeSunrise
    willSeeSunset := events.willSeeSunset
    willSeeNight := events.willSeeNight
    willSeeGoldenHour := events.willSeeGoldenHour
    sunrise := events.sunrise
    sunset := events.sunset
    summary := []
    recommendations := []
    seatSuggestion := Side.either
    timeline := sunAnalysis
    nightDuration := events.nightMinutes
    dayDuration := events.dayMinutes }
  let both := events.willSeeSunrise && events.willSeeSunset
  -- the "CRITICAL FIX": inside the both-branch, events.willSeeNight is
  -- forced true and nightMinutes re-estimated when no night sample existed
  let patchedNight : Bool := if both then true else events.willSeeNight
  let patchedNightMinutes : ℝ :=
    if both then
      if events.willSeeNight then events.nightMinutes
      else match events.sunset, events.sunrise with
        | some ss, some sr => max 0 ((sr.time - ss.time) / (1000 * 60))
        | _, _ => jsRound (6 * 60 * 0.25)
    else events.nightMinutes
  -- seat suggestion of the branch chain (lines 300, 327, 331)
  let seatB : Side :=
    if both then Side.either
    else if events.willSeeSunrise then
      (determineSeatSideForSunrise fromAirport toAirport).getD Side.either
    else if events.willSeeSunset then
      (determineSeatSideForSunset fromAirport toAirport).getD Side.either
    else Side.either
  -- summary/recommendations of the branch chain (lines 296–333)
  let summaryB : List SummaryItem :=
    if both then
      [.bothSunriseAndSunset,
       .sunriseTimeBoth (events.sunrise.map SunEvent.time),
       .sunsetTimeBoth (events.sunset.map SunEvent.time),
       .nightStargazingAlso (jsRound (patchedNightMinutes / 60 * 10) / 10)]
    else if events.willSeeSunrise then
      [.sunriseWillSee (events.sunrise.map SunEvent.time)]
    else if events.willSeeSunset then
      [.sunsetWillSee (events.sunset.map SunEvent.time)]
    else []
  let recsB : List RecTag :=
    if both then [.fullCycleTreat]
    else if events.willSeeSunrise then [.windowSeat seatB]
    else if events.willSeeSunset then [.windowSeat seatB]
    else []
  -- lines 335–339 (uses the patched events)
  let summaryC := if patchedNight then
      summaryB ++ [.nightStargazing (jsRound (patchedNightMinutes / 60 * 10) / 10)]
    else summaryB
  let recsC := if patchedNight then recsB ++ [.nightPhotography] else recsB
  -- lines 341–344
  let summaryD := if events.willSeeGoldenHour then
      summaryC ++ [.goldenHourGlow (jsRound (events.goldenHourMinutes / 60 * 10) / 10)]
    else summaryC
  -- lines 346–349
  let allQuiet := !events.willSeeSunrise && !events.willSeeSunset && !patchedNight
  let summaryE := if allQuiet then summaryD ++ [.brightDaylight] else summaryD
  let recsD := if allQuiet then recsC ++ [.scenicDaylight] else recsC
  -- lines 352–355
  let recsE := if events.willSeeSunrise || events.willSeeSunset then
      recsD ++ [.bringCamera, .earlyCheckIn]
    else recsD
  { report0 with
    summary := summaryE
    recommendations := recsE
    seatSuggestion := seatB }

/-- Embedding of `analyzeFlightSunConditions` (lines 43–87): the duration-driven
pipeline.  An unknown airport code throws in the source; modelled as
`none` (the caller catches it). -/
noncomputable def analyzeFlightSunConditions (engine : SunEngine)
    (fromAirport toAirport : String) (startTime flightDuration : ℝ) :
    Option FlightSunAnalysis :=
  match AIRPORTS.lookup fromAirport, AIRPORTS.lookup toAirport with
  | some fromCoords, some toCoords =>
    let samplingPoints :=
      generateFlightSamplingPoints fromCoords toCoords startTime flightDuration
    let sunAnalysis := analyzeSunConditions engine samplingPoints
    let events := detectSunEvents sunAnalysis
    some (generateFlightSunReport events sunAnalysis fromAirport toAirport)
  | _, _ => none

/-! ## routeHandler.ts -/

/-- The response payload assembled by `routeHandler` (the
`enhancedAnalysis = null` case is the documented fallback object with all
flags false; modelled as `none`). -/
structure RoutePayload where
  path : List Waypoint
  sunPositions : List SunPosition
  recommendation : String
  enhancedAnalysis : Option FlightSunAnalysis

/-- The three HTTP outcomes of `routeHandler`: 400, 500, 200. -/
inductive HandlerResult where
  | badRequest (msg : String)
  | serverError (msg : String)
  | ok (payload : RoutePayload)

/-- Whether a handler outcome is the 200 response. -/
def HandlerResult.isOk : HandlerResult → Bool
  | .ok _ => true
  | _ => false

/-- The path of the 200 response, when there is one. -/
def HandlerResult.okPath : HandlerResult → Option (List Waypoint)
  | .ok payload => some payload.path
  | _ => none

/-- Embedding of `routeHandler` from `routeHandler.ts`.  Missing parameters and an
unparseable departure date are both modelled as `none` arguments (each
yields a 400 in the source).  NOTE (claim C9): there is no check that
`fromAirport ≠ toAirport`.  The enhanced analysis re-parses the departure
instant from `YYYY-MM-DD` + `HH:MM` strings, truncating it to the minute —
modelled with `⌊· / 60000⌋ * 60000`.  A thrown path computation is caught
by the outer try/catch (500); a thrown enhanced analysis is caught and
replaced by `null`. -/
noncomputable def routeHandler (engine : SunEngine) (fromQ toQ : Option String)
    (departQ durationQ : Option ℝ) : HandlerResult :=
  match fromQ, toQ, departQ with
  | some fromAirport, some toAirport, some departureTime =>
    match calculateFlightPath fromAirport toAirport departureTime with
    | .error msg => .serverError msg
    | .ok flightPath =>
      let sunPositions := calculateSunPositions engine flightPath departureTime
      let recommendation := getSeatRecommendation sunPositions flightPath
      let enhancedAnalysis : Option FlightSunAnalysis :=
        match durationQ with
        | none => none
        | some flightDuration =>
          analyzeFlightSunConditions engine fromAirport toAirport
            (((⌊departureTime / 60000⌋ : ℤ) : ℝ) * 60000) flightDuration
      .ok ⟨flightPath, sunPositions, recommendation, enhancedAnalysis⟩
  | _, _, _ => .badRequest "Missing required parameters: from, to, depart"

/-! ## Definitions modelled from the spec's words (for refutation targets) -/

/-- Modelled from the spec's words (§4.5): `normalize360`. -/
noncomputable def specNormalize360 (x : ℝ) : ℝ :=
  jsMod (jsMod x 360 + 360) 360

/-- Modelled from the spec's words (claim C4, §4.5): the Section 4.5
decision rule applied with a fixed event sun bearing: relative bearing in
`[0,180]` recommends left, in `(180,360)` recommends right. -/
noncomputable def specEventRuleSide (sunBearing flightBearing : ℝ) : Side :=
  let rel := specNormalize360 (sunBearing - flightBearing)
  if 0 ≤ rel ∧ rel ≤ 180 then Side.left else Side.right

/-- Modelled from the spec's words (claim C3 amended): the LAST sample `c`
in the chain `prev :: rest` at which the elevation crosses from `≤ 0`
to `> 0`. -/
noncomputable def lastSunriseCrossing : SunCondition → List SunCondition →
    Option SunCondition
  | _, [] => none
  | prev, c :: rest =>
    (lastSunriseCrossing c rest).or
      (if prev.sunElevation ≤ 0 ∧ c.sunElevation > 0 then some c else none)

/-- Modelled from the spec's words (claim C3 amended): the LAST sample at
which the elevation crosses from `> 0` to `≤ 0`. -/
noncomputable def lastSunsetCrossing : SunCondition → List SunCondition →
    Option SunCondition
  | _, [] => none
  | prev, c :: rest =>
    (lastSunsetCrossing c rest).or
      (if prev.sunElevation > 0 ∧ c.sunElevation ≤ 0 then some c else none)

/-- Coherence of a sample list: each sample's stored condition is the
classification of its stored elevation (true of every list produced by
`analyzeSunConditions`). -/
def coherentSamples (l : List SunCondition) : Prop :=
  ∀ s ∈ l, s.condition = classifySunCondition s.sunElevation

/-- Every `analyzeSunConditions` output is coherent. -/
lemma analyzeSunConditions_coherent (engine : SunEngine)
    (pts : List SamplingPoint) : coherentSamples (analyzeSunConditions engine pts) := by
  intro s hs
  simp only [analyzeSunConditions, List.mem_map] at hs
  obtain ⟨p, _, rfl⟩ := hs
  rfl

/-! ## Supporting lemmas: the detectSunEvents accumulator -/

@[simp] lemma countCondition_sunrise (c : SunCondition) (e : SunEvents) :
    (countCondition c e).sunrise = e.sunrise := by
  cases hc : c.condition <;> simp [countCondition, hc]

@[simp] lemma countCondition_sunset (c : SunCondition) (e : SunEvents) :
    (countCondition c e).sunset = e.sunset := by
  cases hc : c.condition <;> simp [countCondition, hc]

@[simp] lemma countCondition_willSeeSunrise (c : SunCondition) (e : SunEvents) :
    (countCondition c e).willSeeSunrise = e.willSeeSunrise := by
  cases hc : c.condition <;> simp [countCondition, hc]

@[simp] lemma countCondition_willSeeSunset (c : SunCondition) (e : SunEvents) :
    (countCondition c e).willSeeSunset = e.willSeeSunset := by
  cases hc : c.condition <;> simp [countCondition, hc]

lemma countCondition_night_mono (c : SunCondition) (e : SunEvents)
    (h : e.willSeeNight = true) : (countCondition c e).willSeeNight = true := by
  cases hc : c.condition <;> simp [countCondition, hc, h]

/-- A counted sample with non-positive elevation (hence classified NIGHT or
TWILIGHT) sets `willSeeNight`. -/
lemma countCondition_night_of_nonpos (c : SunCondition) (e : SunEvents)
    (hcoh : c.condition = classifySunCondition c.sunElevation)
    (h : c.sunElevation ≤ 0) : (countCondition c e).willSeeNight = true := by
  rcases lt_or_eq_of_le h with h' | h'
  · have : c.condition = .NIGHT := by rw [hcoh, classifySunCondition, if_pos h']
    simp [countCondition, this]
  · have : c.condition = .TWILIGHT := by
      rw [hcoh, h', classifySunCondition]
      norm_num
    simp [countCondition, this]

@[simp] lemma detectTransitions_willSeeNight (p c : SunCondition) (e : SunEvents) :
    (detectTransitions p c e).willSeeNight = e.willSeeNight := by
  unfold detectTransitions
  split_ifs <;> rfl

lemma detectTransitions_sunrise (p c : SunCondition) (e : SunEvents) :
    (detectTransitions p c e).sunrise =
      if p.sunElevation ≤ 0 ∧ c.sunElevation > 0 then some (mkSunEvent c)
      else e.sunrise := by
  unfold detectTransitions
  split_ifs <;> rfl

lemma detectTransitions_sunset (p c : SunCondition) (e : SunEvents) :
    (detectTransitions p c e).sunset =
      if p.sunElevation > 0 ∧ c.sunElevation ≤ 0 then some (mkSunEvent c)
      else e.sunset := by
  unfold detectTransitions
  split_ifs <;> rfl

lemma detectTransitions_willSeeSunrise (p c : SunCondition) (e : SunEvents) :
    (detectTransitions p c e).willSeeSunrise =
      if p.sunElevation ≤ 0 ∧ c.sunElevation > 0 then true
      else e.willSeeSunrise := by
  unfold detectTransitions
  split_ifs <;> rfl

/-- The flag `willSeeNight` only ever goes from false to true along the loop. -/
lemma detectGo_night_mono (l : List SunCondition) :
    ∀ (prev : SunCondition) (e : SunEvents), e.willSeeNight = true →
    (detectGo prev e l).willSeeNight = true := by
  induction l with
  | nil => intro prev e h; simpa [detectGo] using h
  | cons c rest ih =>
    intro prev e h
    rw [detectGo]
    exact ih c _ (by simp [countCondition_night_mono c e h])

/-- Loop invariant: on coherent samples, once the loop can have recorded a
sunrise, it has seen a sample with non-positive elevation and therefore a
NIGHT/TWILIGHT sample. -/
lemma detectGo_sunrise_night (l : List SunCondition) :
    ∀ (prev : SunCondition) (e : SunEvents), coherentSamples l →
    (e.willSeeSunrise = true → e.willSeeNight = true) →
    (prev.sunElevation ≤ 0 → e.willSeeNight = true) →
    (detectGo prev e l).willSeeSunrise = true →
    (detectGo prev e l).willSeeNight = true := by
  induction l with
  | nil => intro prev e _ h2 _ hsr; exact h2 hsr
  | cons c rest ih =>
    intro prev e hcoh h2 h3 hsr
    rw [detectGo] at hsr ⊢
    have hcohc : c.condition = classifySunCondition c.sunElevation :=
      hcoh c (List.mem_cons_self c rest)
    have hcohr : coherentSamples rest := fun s hs => hcoh s (List.mem_cons_of_mem c hs)
    refine ih c _ hcohr ?_ ?_ hsr
    · -- sunrise recorded at this step implies night already recorded
      intro hsr'
      rw [detectTransitions_willSeeSunrise] at hsr'
      by_cases hA : prev.sunElevation ≤ 0 ∧ c.sunElevation > 0
      · simp [countCondition_night_mono c e (h3 hA.1)]
      · rw [if_neg hA] at hsr'
        simp at hsr'
        simp [countCondition_night_mono c e (h2 hsr')]
    · -- the new prev is c; if its elevation is non-positive it was counted
      intro hc
      simp [countCondition_night_of_nonpos c e hcohc hc]

/-- On coherent samples, a detected sunrise forces `willSeeNight`. -/
lemma detectSunEvents_sunrise_night (samples : List SunCondition)
    (hcoh : coherentSamples samples)
    (hsr : (detectSunEvents samples).willSeeSunrise = true) :
    (detectSunEvents samples).willSeeNight = true := by
  cases samples with
  | nil => simp [detectSunEvents] at hsr
  | cons c rest =>
    rw [detectSunEvents] at hsr ⊢
    have hcohc : c.condition = classifySunCondition c.sunElevation :=
      hcoh c (List.mem_cons_self c rest)
    have hcohr : coherentSamples rest := fun s hs => hcoh s (List.mem_cons_of_mem c hs)
    refine detectGo_sunrise_night rest c _ hcohr ?_ ?_ hsr
    · intro h
      simp at h
    · intro hc
      exact countCondition_night_of_nonpos c _ hcohc hc

/-- C2: for every flight analysis (coherent sample timeline) in which both
a sunrise and a sunset event are detected, the returned report has
`willSeeNight = true` — even in the (in fact unreachable) case that no
sample was classified NIGHT or TWILIGHT. -/
theorem C2_both_events_imply_night (samples : List SunCondition)
    (fromA toA : String) (hcoh : coherentSamples samples)
    (hsr : (detectSunEvents samples).willSeeSunrise = true)
    (hss : (detectSunEvents samples).willSeeSunset = true) :
    (generateFlightSunReport (detectSunEvents samples) samples fromA toA).willSeeNight
      = true := by
  have hrep : (generateFlightSunReport (detectSunEvents samples) samples fromA toA).willSeeNight
      = (detectSunEvents samples).willSeeNight := rfl
  rw [hrep]
  exact detectSunEvents_sunrise_night samples hcoh hsr

/-- Concrete coherent timeline with one sunrise and one sunset crossing. -/
noncomputable def c2samples : List SunCondition :=
  [⟨0, 0, 0, -1, 0, .NIGHT, 0⟩,
   ⟨1, 0, 0, 1, 0, .TWILIGHT, 50⟩,
   ⟨2, 0, 0, -1, 0, .NIGHT, 100⟩]

/-- Witness for C2 at a concrete timeline. -/
theorem C2_witness :
    coherentSamples c2samples ∧
    (detectSunEvents c2samples).willSeeSunrise = true ∧
    (detectSunEvents c2samples).willSeeSunset = true ∧
    (generateFlightSunReport (detectSunEvents c2samples) c2samples "DEL" "JAI").willSeeNight
      = true := by
  have hcoh : coherentSamples c2samples := by
    intro s hs
    simp [c2samples] at hs
    rcases hs with h | h | h <;> rw [h] <;> norm_num [classifySunCondition]
  have hsr : (detectSunEvents c2samples).willSeeSunrise = true := by
    norm_num [c2samples, detectSunEvents, detectGo, detectTransitions,
      countCondition, mkSunEvent]
  have hss : (detectSunEvents c2samples).willSeeSunset = true := by
    norm_num [c2samples, detectSunEvents, detectGo, detectTransitions,
      countCondition, mkSunEvent]
  exact ⟨hcoh, hsr, hss, C2_both_events_imply_night c2samples "DEL" "JAI" hcoh hsr hss⟩

/-! ## Claim C3: sunrise/sunset event location -/

/-- The sunrise event after the loop is the LAST crossing in the chain (or
whatever the accumulator already held when there is none). -/
lemma detectGo_sunrise_eq (l : List SunCondition) :
    ∀ (prev : SunCondition) (e : SunEvents),
    (detectGo prev e l).sunrise =
      ((lastSunriseCrossing prev l).map mkSunEvent).or e.sunrise := by
  induction l with
  | nil => intro prev e; simp [detectGo, lastSunriseCrossing]
  | cons c rest ih =>
    intro prev e
    rw [detectGo, ih, lastSunriseCrossing]
    have he' : (detectTransitions prev c (countCondition c e)).sunrise =
        if prev.sunElevation ≤ 0 ∧ c.sunElevation > 0 then some (mkSunEvent c)
        else e.sunrise := by
      rw [detectTransitions_sunrise, countCondition_sunrise]
    rw [he']
    cases hlast : lastSunriseCrossing c rest with
    | some v => simp [Option.or]
    | none =>
      split_ifs with hA <;> simp [Option.or]

/-- Symmetric statement for the sunset event. -/
lemma detectGo_sunset_eq (l : List SunCondition) :
    ∀ (prev : SunCondition) (e : SunEvents),
    (detectGo prev e l).sunset =
      ((lastSunsetCrossing prev l).map mkSunEvent).or e.sunset := by
  induction l with
  | nil => intro prev e; simp [detectGo, lastSunsetCrossing]
  | cons c rest ih =>
    intro prev e
    rw [detectGo, ih, lastSunsetCrossing]
    have he' : (detectTransitions prev c (countCondition c e)).sunset =
        if prev.sunElevation > 0 ∧ c.sunElevation ≤ 0 then some (mkSunEvent c)
        else e.sunset := by
      rw [detectTransitions_sunset, countCondition_sunset]
    rw [he']
    cases hlast : lastSunsetCrossing c rest with
    | some v => simp [Option.or]
    | none =>
      split_ifs with hA <;> simp [Option.or]

/-- C3 (amended): `detectSunEvents` keeps a single sunrise (resp. sunset)
event, but each later crossing OVERWRITES it, so the recorded event is the
LAST below→above (resp. above→below) crossing, not the first. -/
theorem C3_amended_last_crossing (first : SunCondition) (rest : List SunCondition) :
    (detectSunEvents (first :: rest)).sunrise =
      (lastSunriseCrossing first rest).map mkSunEvent ∧
    (detectSunEvents (first :: rest)).sunset =
      (lastSunsetCrossing first rest).map mkSunEvent := by
  constructor
  · rw [detectSunEvents, detectGo_sunrise_eq]
    cases (lastSunriseCrossing first rest).map mkSunEvent <;> simp [Option.or]
  · rw [detectSunEvents, detectGo_sunset_eq]
    cases (lastSunsetCrossing first rest).map mkSunEvent <;> simp [Option.or]

/-- A timeline with three sunrise-like crossings (at progress 20, 60, 100)
and two sunset-like crossings (at progress 40, 80). -/
noncomputable def c3samples : List SunCondition :=
  [⟨0, 0, 0, -1, 0, .NIGHT, 0⟩,
   ⟨1, 0, 0, 1, 0, .TWILIGHT, 20⟩,
   ⟨2, 0, 0, -1, 0, .NIGHT, 40⟩,
   ⟨3, 0, 0, 1, 0, .TWILIGHT, 60⟩,
   ⟨4, 0, 0, -1, 0, .NIGHT, 80⟩,
   ⟨5, 0, 0, 1, 0, .TWILIGHT, 100⟩]

/-- C3 counterexample: on a sequence with three sunrise-like crossings the
recorded sunrise event sits at the LAST crossing (progress 100), not at the
first crossing (progress 20) as the claim states. -/
theorem C3_counterexample :
    (detectSunEvents c3samples).sunrise.map SunEvent.progressPercent = some 100 ∧
    ((some (100 : ℝ) = some (20 : ℝ)) ↔ False) := by
  constructor
  · norm_num [c3samples, detectSunEvents, detectGo, detectTransitions,
      countCondition, mkSunEvent]
  · norm_num

/-! ## Claim C5: interpolation endpoints -/

/-- C5 (amended): the 15-minute analysis sampler's interpolator returns
`p` for every fraction `≤ 0` and `q` for every fraction `≥ 1` (so in
particular at the endpoints 0 and 1), for ALL coordinate pairs including
`p = q` — its fraction guards run before any trigonometry.  (The 50-km
path sampler's `calculateGreatCircle` has no such guards; see the
counterexample.) -/
theorem C5_amended_endpoints (p q : ℝ × ℝ) (f : ℝ) :
    (f ≤ 0 → interpolateGreatCircle p q f = p) ∧
    (1 ≤ f → interpolateGreatCircle p q f = q) := by
  constructor
  · intro h
    rw [interpolateGreatCircle, if_pos h]
  · intro h
    rw [interpolateGreatCircle, if_neg (by linarith), if_pos (by simpa using h)]

/-- Witness for C5 (amended) at a concrete pair and both endpoints. -/
theorem C5_witness :
    interpolateGreatCircle (1, 2) (3, 4) 0 = (1, 2) ∧
    interpolateGreatCircle (1, 2) (3, 4) 1 = (3, 4) :=
  ⟨(C5_amended_endpoints (1, 2) (3, 4) 0).1 le_rfl,
   (C5_amended_endpoints (1, 2) (3, 4) 1).2 le_rfl⟩

/-- C5 counterexample: the 50-km path sampler's `calculateGreatCircle` has
no `d = 0` short-circuit: with identical endpoints the slerp weights divide
by `sin 0 = 0` (JS: `NaN`; in this real-number embedding total division
yields 0), and interpolation at fraction 0 does NOT return the input
point. -/
theorem C5_counterexample :
    calculateGreatCircle (28.5562, 77.1000) (28.5562, 77.1000) 0 ≠
      (28.5562, 77.1000) := by
  have heval : calculateGreatCircle (28.5562, 77.1000) (28.5562, 77.1000) 0 = (0, 0) := by
    unfold calculateGreatCircle
    norm_num [jsAtan2]
  rw [heval]
  intro h
  have h1 : (0 : ℝ) = 28.5562 := congrArg Prod.fst h
  norm_num at h1

/-! ## Claim C8: the elevation classifier -/

/-- C8: `classifySunCondition` is total on `ℝ` and partitions elevations
into exactly the four contiguous ranges `(-∞,0)`, `[0,6)`, `[6,10)`,
`[10,∞)` — so on `[-90,90]` the transitions are exactly at 0, 6, 10 in that
order. -/
theorem C8_classifier_partition (e : ℝ) :
    (classifySunCondition e = .NIGHT ↔ e < 0) ∧
    (classifySunCondition e = .TWILIGHT ↔ 0 ≤ e ∧ e < 6) ∧
    (classifySunCondition e = .GOLDEN_HOUR ↔ 6 ≤ e ∧ e < 10) ∧
    (classifySunCondition e = .DAYLIGHT ↔ 10 ≤ e) := by
  unfold classifySunCondition
  split_ifs with h1 h2 h3 <;> refine ⟨?_, ?_, ?_, ?_⟩ <;> simp <;> intros <;>
    first
      | linarith
      | (constructor <;> linarith)

/-! ## Supporting lemmas: bearings -/

/-- Normalizing `t·180/π + 360` by `% 360` lands in `[0, 360)` whenever
`t ∈ (-π, π]` (the range of `jsAtan2`). -/
lemma normalize_range (t : ℝ) (h1 : -π < t) (h2 : t ≤ π) :
    0 ≤ jsMod (t * 180 / π + 360) 360 ∧ jsMod (t * 180 / π + 360) 360 < 360 := by
  have hπ := pi_pos
  have h180π : (0 : ℝ) < 180 / π := by positivity
  have hb1 : -180 < t * 180 / π := by
    have h := mul_lt_mul_of_pos_right h1 h180π
    rw [show -π * (180 / π) = -180 by field_simp; ring] at h
    calc (-180 : ℝ) < t * (180 / π) := h
      _ = t * 180 / π := by ring
  have hb2 : t * 180 / π ≤ 180 := by
    have h := mul_le_mul_of_nonneg_right h2 h180π.le
    rw [show π * (180 / π) = 180 by field_simp] at h
    calc t * 180 / π = t * (180 / π) := by ring
      _ ≤ 180 := h
  rcases lt_or_ge (t * 180 / π) 0 with h | h
  · rw [jsMod_eq_self (by norm_num) (by linarith) (by linarith)]
    constructor <;> linarith
  · rw [jsMod_eq_sub (by norm_num) (by linarith) (by linarith)]
    constructor <;> linarith

/-- The function `calculateBearing` always lands in `[0, 360)`. -/
lemma calculateBearing_mem (lat1 lon1 lat2 lon2 : ℝ) :
    0 ≤ calculateBearing lat1 lon1 lat2 lon2 ∧
    calculateBearing lat1 lon1 lat2 lon2 < 360 := by
  unfold calculateBearing
  exact normalize_range _ (jsAtan2_mem _ _).1 (jsAtan2_mem _ _).2

/-- Along a meridian, heading to the strictly larger latitude (difference
below 180°), the bearing is exactly 0 (due North). -/
lemma bearing_meridian_north (lat1 lat2 lon : ℝ) (h1 : lat1 < lat2)
    (h2 : lat2 - lat1 < 180) : calculateBearing lat1 lon lat2 lon = 0 := by
  have hπ := pi_pos
  unfold calculateBearing
  have hd : (lon - lon) * π / 180 = 0 := by ring
  rw [hd]
  simp only [Real.sin_zero, Real.cos_zero, zero_mul, mul_one]
  have hx : Real.cos (lat1 * π / 180) * Real.sin (lat2 * π / 180) -
      Real.sin (lat1 * π / 180) * Real.cos (lat2 * π / 180) =
      Real.sin (lat2 * π / 180 - lat1 * π / 180) := by
    rw [Real.sin_sub]
    ring
  rw [hx]
  have hxpos : 0 < Real.sin (lat2 * π / 180 - lat1 * π / 180) := by
    apply Real.sin_pos_of_pos_of_lt_pi
    · nlinarith
    · nlinarith
  rw [jsAtan2, if_pos hxpos, zero_div, arctan_zero, zero_mul, zero_div, zero_add]
  rw [jsMod_eq_sub (by norm_num) (by norm_num) (by norm_num)]
  norm_num

/-- Along a meridian, heading to the strictly smaller latitude (difference
below 180°), the bearing is exactly 180 (due South). -/
lemma bearing_meridian_south (lat1 lat2 lon : ℝ) (h1 : lat2 < lat1)
    (h2 : lat1 - lat2 < 180) : calculateBearing lat1 lon lat2 lon = 180 := by
  have hπ := pi_pos
  unfold calculateBearing
  have hd : (lon - lon) * π / 180 = 0 := by ring
  rw [hd]
  simp only [Real.sin_zero, Real.cos_zero, zero_mul, mul_one]
  have hx : Real.cos (lat1 * π / 180) * Real.sin (lat2 * π / 180) -
      Real.sin (lat1 * π / 180) * Real.cos (lat2 * π / 180) =
      Real.sin (lat2 * π / 180 - lat1 * π / 180) := by
    rw [Real.sin_sub]
    ring
  rw [hx]
  have hxneg : Real.sin (lat2 * π / 180 - lat1 * π / 180) < 0 := by
    rw [show lat2 * π / 180 - lat1 * π / 180 = -(lat1 * π / 180 - lat2 * π / 180) by ring,
      Real.sin_neg, neg_lt_zero]
    apply Real.sin_pos_of_pos_of_lt_pi
    · nlinarith
    · nlinarith
  rw [jsAtan2, if_neg (by linarith), if_pos ⟨hxneg, le_refl 0⟩, zero_div, arctan_zero,
    zero_add]
  rw [show π * 180 / π + 360 = 540 by field_simp; norm_num]
  rw [jsMod_eq_sub (by norm_num) (by norm_num) (by norm_num)]
  norm_num

/-! ## Claim C7: bearing round-trip -/

/-- C7 counterexample: for A = (0°N, 0°E) and B = (45°N, 90°E) the two
bearings are 45° and 270°; their difference is 225° (mod 360), which is 45°
away from 180° — far outside any floating tolerance. -/
theorem C7_counterexample :
    calculateBearing 0 0 45 90 = 45 ∧ calculateBearing 45 90 0 0 = 270 ∧
    jsMod (270 - 45) 360 = 225 ∧ ((225 : ℝ) = 180 ↔ False) ∧
    ((360 - 225 : ℝ) = 180 ↔ False) := by
  have hπ := pi_pos
  refine ⟨?_, ?_, ?_, by norm_num, by norm_num⟩
  · unfold calculateBearing
    rw [show ((90 : ℝ) - 0) * π / 180 = π / 2 by ring,
      show ((0 : ℝ) * π / 180) = 0 by ring,
      show ((45 : ℝ) * π / 180) = π / 4 by ring]
    simp only [Real.sin_pi_div_two, Real.cos_zero, Real.sin_zero, Real.cos_pi_div_two,
      one_mul, zero_mul, mul_zero, sub_zero]
    have hsin4 : Real.sin (π / 4) = Real.sqrt 2 / 2 := Real.sin_pi_div_four
    have hcos4 : Real.cos (π / 4) = Real.sqrt 2 / 2 := Real.cos_pi_div_four
    have hpos : 0 < Real.sin (π / 4) := by
      rw [hsin4]
      positivity
    rw [jsAtan2, if_pos hpos]
    rw [show Real.cos (π / 4) / Real.sin (π / 4) = 1 by
      rw [hsin4, hcos4]
      field_simp]
    rw [arctan_one]
    rw [show π / 4 * 180 / π + 360 = 405 by field_simp; ring]
    rw [jsMod_eq_sub (by norm_num) (by norm_num) (by norm_num)]
    norm_num
  · unfold calculateBearing
    rw [show ((0 : ℝ) - 90) * π / 180 = -(π / 2) by ring,
      show ((45 : ℝ) * π / 180) = π / 4 by ring,
      show ((0 : ℝ) * π / 180) = 0 by ring]
    simp only [Real.sin_neg, Real.cos_neg, Real.sin_pi_div_two, Real.cos_pi_div_two,
      Real.sin_zero, Real.cos_zero, mul_zero, zero_sub, mul_one, neg_mul, one_mul,
      mul_neg, neg_neg, sub_zero, neg_zero, zero_mul]
    rw [jsAtan2]
    rw [if_neg (by norm_num), if_neg (by norm_num), if_neg (by norm_num),
      if_neg (by norm_num), if_pos ⟨rfl, by norm_num⟩]
    rw [show -(π / 2) * 180 / π + 360 = 270 by field_simp; ring]
    rw [jsMod_eq_self (by norm_num) (by norm_num) (by norm_num)]
  · rw [jsMod_eq_self (by norm_num) (by norm_num) (by norm_num)]
    norm_num

/-- C7 (amended): the claimed 180° round-trip relation does NOT hold for
general distinct coordinates (see the counterexample); it does hold exactly
along a common meridian: for equal longitudes and distinct latitudes less
than 180° apart, the two bearings are 0 and 180. -/
theorem C7_amended_meridian (lat1 lat2 lon : ℝ) (hne : lat1 ≠ lat2)
    (hd : |lat1 - lat2| < 180) :
    |calculateBearing lat1 lon lat2 lon - calculateBearing lat2 lon lat1 lon| = 180 := by
  rw [abs_sub_lt_iff] at hd
  rcases lt_or_gt_of_ne hne with h | h
  · rw [bearing_meridian_north lat1 lat2 lon h (by linarith),
      bearing_meridian_south lat2 lat1 lon h (by linarith)]
    norm_num
  · rw [bearing_meridian_south lat1 lat2 lon h (by linarith),
      bearing_meridian_north lat2 lat1 lon h (by linarith)]
    norm_num

/-- Witness for C7 (amended) on the meridian 7°E. -/
theorem C7_witness :
    (0 : ℝ) ≠ 45 ∧ |(0 : ℝ) - 45| < 180 ∧
    |calculateBearing 0 7 45 7 - calculateBearing 45 7 0 7| = 180 :=
  ⟨by norm_num, by rw [abs_sub_lt_iff]; constructor <;> norm_num,
   C7_amended_meridian 0 45 7 (by norm_num)
     (by rw [abs_sub_lt_iff]; constructor <;> norm_num)⟩

/-! ## Claim C1: azimuth reference frame -/

/-- A solar engine that reports the sun at astronomical azimuth `π/2` rad
(90° in SunCalc's South-referenced frame, i.e. due West as a map bearing
270°) and altitude `π/6` rad (30°), everywhere and always. -/
noncomputable def az90Engine : SunEngine := fun _ _ _ => (π / 2, π / 6)

/-- A two-waypoint due-North flight path (0°N 0°E → 10°N 0°E). -/
noncomputable def demoPath : List Waypoint := [⟨0, 0, 0⟩, ⟨10, 0, 0⟩]

/-- C1: evaluation of the code at the failing input.  The azimuth stored by
`calculateSunPositions` is the engine's raw South-referenced azimuth merely
scaled to degrees (90), NOT the +180°-converted North bearing (270) that
the claim describes; consequently `getSeatRecommendation` answers "left"
where the claimed conversion would answer "right". -/
theorem C1_azimuth_unconverted :
    ((calculateSunPositions az90Engine demoPath 0).map SunPosition.azimuth
      = [90, 90]) ∧
    getSeatRecommendation (calculateSunPositions az90Engine demoPath 0) demoPath
      = "left" ∧
    ((calculateSunPositionsClaim az90Engine demoPath 0).map SunPosition.azimuth
      = [270, 270]) ∧
    getSeatRecommendation (calculateSunPositionsClaim az90Engine demoPath 0) demoPath
      = "right" := by
  have hπ := pi_pos
  have h90 : π / 2 * (180 / π) = (90 : ℝ) := by
    field_simp
    ring
  have h30 : π / 6 * (180 / π) = (30 : ℝ) := by
    field_simp
    ring
  have hsp : calculateSunPositions az90Engine demoPath 0 =
      [⟨0, 0, 0, 90, 30⟩, ⟨10, 0, 0, 90, 30⟩] := by
    simp [calculateSunPositions, demoPath, az90Engine, h90, h30]
  have hspc : calculateSunPositionsClaim az90Engine demoPath 0 =
      [⟨0, 0, 0, 270, 30⟩, ⟨10, 0, 0, 270, 30⟩] := by
    simp [calculateSunPositionsClaim, demoPath, az90Engine, h90, h30]
    norm_num
  have hbearing : calculateBearing 0 0 10 0 = 0 :=
    bearing_meridian_north 0 10 0 (by norm_num) (by norm_num)
  refine ⟨by rw [hsp]; rfl, ?_, by rw [hspc]; rfl, ?_⟩
  · rw [hsp]
    norm_num [getSeatRecommendation, demoPath, List.filter_cons, List.foldl_cons,
      List.headI, List.getLastD, hbearing, jsMod, jsTrunc]
  · rw [hspc]
    norm_num [getSeatRecommendation, demoPath, List.filter_cons, List.foldl_cons,
      List.headI, List.getLastD, hbearing, jsMod, jsTrunc]

/-! ## Claim C4: event-based seat side vs the Section 4.5 rule -/

/-- The sunrise quadrant chain collapses, for bearings in `[0, 360)`, to
"left on `[135, 315)`, right elsewhere" (the `either` arm is unreachable). -/
lemma sunriseQuadrant_eq (B : ℝ) (h0 : 0 ≤ B) (h1 : B < 360) :
    (if 315 ≤ B ∨ B < 45 then Side.right
     else if 45 ≤ B ∧ B < 135 then Side.right
     else if 135 ≤ B ∧ B < 225 then Side.left
     else if 225 ≤ B ∧ B < 315 then Side.left
     else Side.either) =
    (if 135 ≤ B ∧ B < 315 then Side.left else Side.right) := by
  rcases lt_or_ge B 45 with c1 | c1
  · rw [if_pos (Or.inr c1), if_neg (fun h => by linarith [h.1])]
  rcases lt_or_ge B 135 with c2 | c2
  · rw [if_neg (by rintro (h | h) <;> linarith), if_pos ⟨c1, c2⟩,
      if_neg (fun h => by linarith [h.1])]
  rcases lt_or_ge B 225 with c3 | c3
  · rw [if_neg (by rintro (h | h) <;> linarith),
      if_neg (fun h => by linarith [h.2]), if_pos ⟨c2, c3⟩,
      if_pos ⟨c2, by linarith⟩]
  rcases lt_or_ge B 315 with c4 | c4
  · rw [if_neg (by rintro (h | h) <;> linarith),
      if_neg (fun h => by linarith [h.2]), if_neg (fun h => by linarith [h.2]),
      if_pos ⟨c3, c4⟩, if_pos ⟨by linarith, c4⟩]
  · rw [if_pos (Or.inl c4), if_neg (fun h => by linarith [h.2])]

/-- The sunset quadrant chain is the mirror image. -/
lemma sunsetQuadrant_eq (B : ℝ) (h0 : 0 ≤ B) (h1 : B < 360) :
    (if 315 ≤ B ∨ B < 45 then Side.left
     else if 45 ≤ B ∧ B < 135 then Side.left
     else if 135 ≤ B ∧ B < 225 then Side.right
     else if 225 ≤ B ∧ B < 315 then Side.right
     else Side.either) =
    (if 135 ≤ B ∧ B < 315 then Side.right else Side.left) := by
  rcases lt_or_ge B 45 with c1 | c1
  · rw [if_pos (Or.inr c1), if_neg (fun h => by linarith [h.1])]
  rcases lt_or_ge B 135 with c2 | c2
  · rw [if_neg (by rintro (h | h) <;> linarith), if_pos ⟨c1, c2⟩,
      if_neg (fun h => by linarith [h.1])]
  rcases lt_or_ge B 225 with c3 | c3
  · rw [if_neg (by rintro (h | h) <;> linarith),
      if_neg (fun h => by linarith [h.2]), if_pos ⟨c2, c3⟩,
      if_pos ⟨c2, by linarith⟩]
  rcases lt_or_ge B 315 with c4 | c4
  · rw [if_neg (by rintro (h | h) <;> linarith),
      if_neg (fun h => by linarith [h.2]), if_neg (fun h => by linarith [h.2]),
      if_pos ⟨c3, c4⟩, if_pos ⟨by linarith, c4⟩]
  · rw [if_pos (Or.inl c4), if_neg (fun h => by linarith [h.2])]

/-- C4 (amended): for every pair of known airports, the event-based
recommendation is the coarse QUADRANT rule on the flight bearing — sunrise:
left exactly on bearings in `[135°, 315°)`, right elsewhere; sunset: the
mirror image — with sunrise and sunset always opposite.  This does NOT
coincide with the Section 4.5 relative-bearing rule with fixed sun bearings
90°/270° (see the counterexample). -/
theorem C4_amended_quadrants (fromA toA : String) (fc tc : ℝ × ℝ)
    (hf : AIRPORTS.lookup fromA = some fc) (ht : AIRPORTS.lookup toA = some tc) :
    determineSeatSideForSunrise fromA toA =
      some (if 135 ≤ calculateBearing fc.1 fc.2 tc.1 tc.2 ∧
          calculateBearing fc.1 fc.2 tc.1 tc.2 < 315 then Side.left
        else Side.right) ∧
    determineSeatSideForSunset fromA toA =
      some (if 135 ≤ calculateBearing fc.1 fc.2 tc.1 tc.2 ∧
          calculateBearing fc.1 fc.2 tc.1 tc.2 < 315 then Side.right
        else Side.left) := by
  obtain ⟨h0, h1⟩ := calculateBearing_mem fc.1 fc.2 tc.1 tc.2
  constructor
  · simp only [determineSeatSideForSunrise, hf, ht]
    rw [sunriseQuadrant_eq _ h0 h1]
  · simp only [determineSeatSideForSunset, hf, ht]
    rw [sunsetQuadrant_eq _ h0 h1]

/-- Witness for C4 (amended) at the JAI → DEL pair. -/
theorem C4_witness :
    AIRPORTS.lookup "JAI" = some (26.8282, 75.8056) ∧
    AIRPORTS.lookup "DEL" = some (28.5562, 77.1000) ∧
    determineSeatSideForSunrise "JAI" "DEL" =
      some (if 135 ≤ calculateBearing 26.8282 75.8056 28.5562 77.1000 ∧
          calculateBearing 26.8282 75.8056 28.5562 77.1000 < 315 then Side.left
        else Side.right) ∧
    determineSeatSideForSunset "JAI" "DEL" =
      some (if 135 ≤ calculateBearing 26.8282 75.8056 28.5562 77.1000 ∧
          calculateBearing 26.8282 75.8056 28.5562 77.1000 < 315 then Side.right
        else Side.left) := by
  have h := C4_amended_quadrants "JAI" "DEL" (26.8282, 75.8056) (28.5562, 77.1000)
    rfl rfl
  exact ⟨rfl, rfl, h.1, h.2⟩

/-- The JAI → DEL flight bearing lies strictly between 0° and 90°
(north-east-ish): its `atan2` arguments are both positive. -/
lemma bearing_JAI_DEL :
    0 < calculateBearing 26.8282 75.8056 28.5562 77.1000 ∧
    calculateBearing 26.8282 75.8056 28.5562 77.1000 < 90 := by
  have hπ := pi_pos
  have hπle : π ≤ 4 := pi_le_four
  have hdef : calculateBearing 26.8282 75.8056 28.5562 77.1000 =
      jsMod (jsAtan2
        (Real.sin ((77.1000 - 75.8056) * π / 180) * Real.cos (28.5562 * π / 180))
        (Real.cos (26.8282 * π / 180) * Real.sin (28.5562 * π / 180) -
          Real.sin (26.8282 * π / 180) * Real.cos (28.5562 * π / 180) *
          Real.cos ((77.1000 - 75.8056) * π / 180)) * 180 / π + 360) 360 := rfl
  rw [hdef]
  -- the two atan2 arguments
  have hy : 0 < Real.sin ((77.1000 - 75.8056) * π / 180) *
      Real.cos (28.5562 * π / 180) := by
    apply mul_pos
    · apply Real.sin_pos_of_pos_of_lt_pi
      · nlinarith
      · nlinarith
    · apply Real.cos_pos_of_mem_Ioo
      constructor
      · nlinarith
      · nlinarith
  have hx : 0 < Real.cos (26.8282 * π / 180) * Real.sin (28.5562 * π / 180) -
      Real.sin (26.8282 * π / 180) * Real.cos (28.5562 * π / 180) *
      Real.cos ((77.1000 - 75.8056) * π / 180) := by
    have hs : Real.cos (26.8282 * π / 180) * Real.sin (28.5562 * π / 180) -
        Real.sin (26.8282 * π / 180) * Real.cos (28.5562 * π / 180) =
        Real.sin (28.5562 * π / 180 - 26.8282 * π / 180) := by
      rw [Real.sin_sub]
      ring
    have hspos : 0 < Real.sin (28.5562 * π / 180 - 26.8282 * π / 180) := by
      apply Real.sin_pos_of_pos_of_lt_pi
      · nlinarith
      · nlinarith
    have hsin1 : 0 ≤ Real.sin (26.8282 * π / 180) := by
      apply Real.sin_nonneg_of_nonneg_of_le_pi
      · nlinarith
      · nlinarith
    have hcos2 : 0 ≤ Real.cos (28.5562 * π / 180) := by
      apply le_of_lt
      apply Real.cos_pos_of_mem_Ioo
      constructor
      · nlinarith
      · nlinarith
    have hcosd : Real.cos ((77.1000 - 75.8056) * π / 180) ≤ 1 := Real.cos_le_one _
    have hkey : Real.sin (26.8282 * π / 180) * Real.cos (28.5562 * π / 180) *
        Real.cos ((77.1000 - 75.8056) * π / 180) ≤
        Real.sin (26.8282 * π / 180) * Real.cos (28.5562 * π / 180) := by
      nlinarith [mul_nonneg hsin1 hcos2]
    linarith [hs ▸ hspos]
  have hatan : jsAtan2
      (Real.sin ((77.1000 - 75.8056) * π / 180) * Real.cos (28.5562 * π / 180))
      (Real.cos (26.8282 * π / 180) * Real.sin (28.5562 * π / 180) -
        Real.sin (26.8282 * π / 180) * Real.cos (28.5562 * π / 180) *
        Real.cos ((77.1000 - 75.8056) * π / 180)) =
      arctan (Real.sin ((77.1000 - 75.8056) * π / 180) * Real.cos (28.5562 * π / 180) /
        (Real.cos (26.8282 * π / 180) * Real.sin (28.5562 * π / 180) -
          Real.sin (26.8282 * π / 180) * Real.cos (28.5562 * π / 180) *
          Real.cos ((77.1000 - 75.8056) * π / 180))) := by
    rw [jsAtan2, if_pos hx]
  rw [hatan]
  set t := arctan (Real.sin ((77.1000 - 75.8056) * π / 180) * Real.cos (28.5562 * π / 180) /
    (Real.cos (26.8282 * π / 180) * Real.sin (28.5562 * π / 180) -
      Real.sin (26.8282 * π / 180) * Real.cos (28.5562 * π / 180) *
      Real.cos ((77.1000 - 75.8056) * π / 180))) with ht
  have htpos : 0 < t := by
    rw [ht]
    have := arctan_strictMono (div_pos hy hx)
    simpa using this
  have htlt : t < π / 2 := arctan_lt_pi_div_two _
  have hb0 : 0 < t * 180 / π := by positivity
  have hb90 : t * 180 / π < 90 := by
    rw [div_lt_iff₀ hπ]
    nlinarith
  rw [jsMod_eq_sub (by norm_num) (by linarith) (by linarith)]
  constructor <;> linarith

/-- C4 counterexample: for the known pair JAI → DEL the event-based
sunrise recommendation is `right`, while the Section 4.5 decision rule with
the fixed sunrise bearing 90° recommends `left`. -/
theorem C4_counterexample :
    determineSeatSideForSunrise "JAI" "DEL" = some Side.right ∧
    specEventRuleSide 90 (calculateBearing 26.8282 75.8056 28.5562 77.1000) =
      Side.left := by
  obtain ⟨hb0, hb90⟩ := bearing_JAI_DEL
  constructor
  · simp only [determineSeatSideForSunrise,
      show AIRPORTS.lookup "JAI" = some ((26.8282 : ℝ), (75.8056 : ℝ)) from rfl,
      show AIRPORTS.lookup "DEL" = some ((28.5562 : ℝ), (77.1000 : ℝ)) from rfl]
    rcases lt_or_ge (calculateBearing 26.8282 75.8056 28.5562 77.1000) 45 with hc | hc
    · rw [if_pos (Or.inr hc)]
    · rw [if_neg (by rintro (h | h) <;> linarith), if_pos ⟨hc, by linarith⟩]
  · rw [specEventRuleSide]
    have hinner : jsMod (90 - calculateBearing 26.8282 75.8056 28.5562 77.1000) 360 =
        90 - calculateBearing 26.8282 75.8056 28.5562 77.1000 :=
      jsMod_eq_self (by norm_num) (by linarith) (by linarith)
    have hrel : specNormalize360 (90 - calculateBearing 26.8282 75.8056 28.5562 77.1000) =
        90 - calculateBearing 26.8282 75.8056 28.5562 77.1000 := by
      rw [specNormalize360, hinner,
        jsMod_eq_sub (by norm_num) (by linarith) (by linarith)]
      ring
    rw [hrel, if_pos ⟨by linarith, by linarith⟩]

/-! ## Claim C6: waypoint count -/

/-- Shared evaluation: on successful lookups, the path returned by
`calculateFlightPath` has `numWaypoints + 1` entries (the loop bound is
inclusive). -/
lemma calculateFlightPath_length (fromA toA : String) (t : ℝ) (fc tc : ℝ × ℝ)
    (hf : AIRPORTS.lookup (jsToUpperCase fromA) = some fc)
    (ht : AIRPORTS.lookup (jsToUpperCase toA) = some tc) :
    (calculateFlightPath fromA toA t).toOption.map List.length =
      some ((numWaypoints fc tc).toNat + 1) := by
  simp only [calculateFlightPath, hf, ht]
  show some (flightWaypoints fc tc t).length = some ((numWaypoints fc tc).toNat + 1)
  rw [flightWaypoints, List.length_map, pathFractions, List.length_map, List.length_range]

/-- C6 (amended): the waypoint count is `max(5, ⌊distance/50⌋) + 1`, one
MORE than the claimed `max(5, ⌊distance/50⌋)`, because the generation loop
runs from `i = 0` to `numWaypoints` inclusively. -/
theorem C6_amended_count (fromA toA : String) (t : ℝ) (fc tc : ℝ × ℝ)
    (hf : AIRPORTS.lookup (jsToUpperCase fromA) = some fc)
    (ht : AIRPORTS.lookup (jsToUpperCase toA) = some tc) :
    (calculateFlightPath fromA toA t).toOption.map List.length =
      some ((max 5 ⌊distanceKm fc tc / 50⌋).toNat + 1) :=
  calculateFlightPath_length fromA toA t fc tc hf ht

/-- Witness for C6 (amended) at DEL → JAI. -/
theorem C6_witness :
    AIRPORTS.lookup (jsToUpperCase "DEL") = some (28.5562, 77.1000) ∧
    AIRPORTS.lookup (jsToUpperCase "JAI") = some (26.8282, 75.8056) ∧
    (calculateFlightPath "DEL" "JAI" 0).toOption.map List.length =
      some ((max 5 ⌊distanceKm (28.5562, 77.1000) (26.8282, 75.8056) / 50⌋).toNat + 1) :=
  ⟨rfl, rfl, C6_amended_count "DEL" "JAI" 0 (28.5562, 77.1000) (26.8282, 75.8056) rfl rfl⟩

/-- C6 counterexample: for DEL → JAI (any departure) the returned count is
NOT `max(5, ⌊distance/50⌋)` — it is that value plus one. -/
theorem C6_counterexample :
    (calculateFlightPath "DEL" "JAI" 0).toOption.map List.length ≠
      some ((max 5 ⌊distanceKm (28.5562, 77.1000) (26.8282, 75.8056) / 50⌋).toNat) := by
  rw [calculateFlightPath_length "DEL" "JAI" 0 (28.5562, 77.1000) (26.8282, 75.8056)
    rfl rfl]
  intro h
  have h' := Option.some.inj h
  have hdef : numWaypoints (28.5562, 77.1000) (26.8282, 75.8056) =
      max 5 ⌊distanceKm (28.5562, 77.1000) (26.8282, 75.8056) / 50⌋ := rfl
  rw [hdef] at h'
  omega

/-! ## Claim C9: identical from/to codes -/

/-- A trivial solar engine (sun pinned at azimuth 0, altitude 0). -/
noncomputable def constEngine : SunEngine := fun _ _ _ => (0, 0)

/-- C9 (amended): a request with identical, KNOWN from/to codes is NOT
rejected: `routeHandler` performs the flight-path computation and returns
the 200 payload (no `InvalidInputError`-style rejection exists for this
case). -/
theorem C9_amended_no_rejection (engine : SunEngine) (code : String) (t : ℝ)
    (coords : ℝ × ℝ) (h : AIRPORTS.lookup (jsToUpperCase code) = some coords) :
    (routeHandler engine (some code) (some code) (some t) none).isOk = true := by
  simp only [routeHandler, calculateFlightPath, h]
  rfl

/-- Witness for C9 (amended): DEL → DEL. -/
theorem C9_witness :
    (routeHandler constEngine (some "DEL") (some "DEL") (some 0) none).isOk = true :=
  C9_amended_no_rejection constEngine "DEL" 0 (28.5562, 77.1000) rfl

/-- With identical endpoints the inline distance is
`6371 · arccos(sin² + cos²) = 6371 · arccos 1 = 0`. -/
lemma distanceKm_self : distanceKm (28.5562, 77.1000) (28.5562, 77.1000) = 0 := by
  have hdef : distanceKm (28.5562, 77.1000) (28.5562, 77.1000) =
      6371 * arccos (Real.sin (28.5562 * π / 180) * Real.sin (28.5562 * π / 180) +
        Real.cos (28.5562 * π / 180) * Real.cos (28.5562 * π / 180) *
        Real.cos (77.1000 * π / 180 - 77.1000 * π / 180)) := rfl
  rw [hdef, show (77.1000 : ℝ) * π / 180 - 77.1000 * π / 180 = 0 by ring,
    Real.cos_zero, mul_one,
    show Real.sin (28.5562 * π / 180) * Real.sin (28.5562 * π / 180) +
        Real.cos (28.5562 * π / 180) * Real.cos (28.5562 * π / 180) = 1 by
      have := Real.sin_sq_add_cos_sq (28.5562 * π / 180)
      nlinarith [this],
    Real.arccos_one, mul_zero]

/-- C9 counterexample: the DEL → DEL request is answered with a 200 payload
whose path was fully computed (6 degenerate waypoints) — it is not rejected
before path computation, contradicting the claim.  (In JS the degenerate
interpolation yields NaN coordinates, but no error is raised.) -/
theorem C9_counterexample :
    (routeHandler constEngine (some "DEL") (some "DEL") (some 0) none).isOk = true ∧
    (routeHandler constEngine (some "DEL") (some "DEL") (some 0) none).okPath.map
      List.length = some 6 := by
  constructor
  · exact C9_amended_no_rejection constEngine "DEL" 0 (28.5562, 77.1000) rfl
  · have hpath : (routeHandler constEngine (some "DEL") (some "DEL") (some 0) none).okPath
        = some (flightWaypoints (28.5562, 77.1000) (28.5562, 77.1000) 0) := by
      simp only [routeHandler, calculateFlightPath,
        show AIRPORTS.lookup (jsToUpperCase "DEL") =
          some ((28.5562 : ℝ), (77.1000 : ℝ)) from rfl]
      rfl
    rw [hpath]
    have hlen : (flightWaypoints (28.5562, 77.1000) (28.5562, 77.1000) 0).length =
        (numWaypoints (28.5562, 77.1000) (28.5562, 77.1000)).toNat + 1 := by
      rw [flightWaypoints, List.length_map, pathFractions, List.length_map,
        List.length_range]
    have hN : numWaypoints (28.5562, 77.1000) (28.5562, 77.1000) = 5 := by
      rw [numWaypoints, distanceKm_self]
      norm_num
    simp [hlen, hN]

/-! ## Claim C10: path monotonicity -/

/-- For valid, distinct coordinates the haversine `arccos` argument is
strictly below 1. -/
lemma cosArg_lt_one (lat1 lon1 lat2 lon2 : ℝ)
    (h1a : -90 < lat1) (h1b : lat1 < 90) (h2a : -90 < lat2) (h2b : lat2 < 90)
    (hlon : |lon2 - lon1| < 360) (hne : (lat1, lon1) ≠ (lat2, lon2)) :
    Real.sin (lat1 * π / 180) * Real.sin (lat2 * π / 180) +
      Real.cos (lat1 * π / 180) * Real.cos (lat2 * π / 180) *
      Real.cos (lon2 * π / 180 - lon1 * π / 180) < 1 := by
  have hπ := pi_pos
  have hπne : (π : ℝ) ≠ 0 := ne_of_gt hπ
  rw [abs_lt] at hlon
  have hca : 0 < Real.cos (lat1 * π / 180) := by
    apply Real.cos_pos_of_mem_Ioo
    constructor
    · have := mul_pos (show (0 : ℝ) < lat1 + 90 by linarith) hπ
      nlinarith
    · have := mul_pos (show (0 : ℝ) < 90 - lat1 by linarith) hπ
      nlinarith
  have hcb : 0 < Real.cos (lat2 * π / 180) := by
    apply Real.cos_pos_of_mem_Ioo
    constructor
    · have := mul_pos (show (0 : ℝ) < lat2 + 90 by linarith) hπ
      nlinarith
    · have := mul_pos (show (0 : ℝ) < 90 - lat2 by linarith) hπ
      nlinarith
  have hsum : Real.sin (lat1 * π / 180) * Real.sin (lat2 * π / 180) +
      Real.cos (lat1 * π / 180) * Real.cos (lat2 * π / 180) =
      Real.cos (lat1 * π / 180 - lat2 * π / 180) := by
    rw [Real.cos_sub]
    ring
  by_cases hθ0 : lon2 * π / 180 - lon1 * π / 180 = 0
  · rw [hθ0, Real.cos_zero, mul_one]
    have hlonEq : lon1 = lon2 := by
      have h := sub_eq_zero.mp hθ0
      field_simp at h
      rcases h with h | h
      · linarith
      · exact absurd h hπne
    have hlatNe : lat1 ≠ lat2 := by
      intro h
      exact hne (by rw [h, hlonEq])
    have habNe : lat1 * π / 180 - lat2 * π / 180 ≠ 0 := by
      intro h
      apply hlatNe
      have h' := sub_eq_zero.mp h
      field_simp at h'
      rcases h' with h' | h'
      · linarith
      · exact absurd h' hπne
    have hb1 : -(2 * π) < lat1 * π / 180 - lat2 * π / 180 := by
      have := mul_pos (show (0 : ℝ) < (lat1 - lat2) + 360 by linarith) hπ
      nlinarith
    have hb2 : lat1 * π / 180 - lat2 * π / 180 < 2 * π := by
      have := mul_pos (show (0 : ℝ) < 360 - (lat1 - lat2) by linarith) hπ
      nlinarith
    rw [hsum]
    refine lt_of_le_of_ne (Real.cos_le_one _) (fun hcos => habNe ?_)
    exact (Real.cos_eq_one_iff_of_lt_of_lt hb1 hb2).mp hcos
  · have hb1 : -(2 * π) < lon2 * π / 180 - lon1 * π / 180 := by
      have := mul_pos (show (0 : ℝ) < (lon2 - lon1) + 360 by linarith) hπ
      nlinarith
    have hb2 : lon2 * π / 180 - lon1 * π / 180 < 2 * π := by
      have := mul_pos (show (0 : ℝ) < 360 - (lon2 - lon1) by linarith) hπ
      nlinarith
    have hcosθ : Real.cos (lon2 * π / 180 - lon1 * π / 180) < 1 := by
      refine lt_of_le_of_ne (Real.cos_le_one _) (fun hcos => hθ0 ?_)
      exact (Real.cos_eq_one_iff_of_lt_of_lt hb1 hb2).mp hcos
    have hstep : Real.cos (lat1 * π / 180) * Real.cos (lat2 * π / 180) *
        Real.cos (lon2 * π / 180 - lon1 * π / 180) <
        Real.cos (lat1 * π / 180) * Real.cos (lat2 * π / 180) := by
      nlinarith [mul_pos hca hcb]
    nlinarith [Real.cos_le_one (lat1 * π / 180 - lat2 * π / 180), hsum]

/-- For valid, distinct coordinates the great-circle distance is strictly
positive. -/
lemma distanceKm_pos (fc tc : ℝ × ℝ)
    (h1a : -90 < fc.1) (h1b : fc.1 < 90) (h2a : -90 < tc.1) (h2b : tc.1 < 90)
    (hlon : |tc.2 - fc.2| < 360) (hne : fc ≠ tc) :
    0 < distanceKm fc tc := by
  have harg := cosArg_lt_one fc.1 fc.2 tc.1 tc.2 h1a h1b h2a h2b hlon
    (by simpa using hne)
  have hdef : distanceKm fc tc =
      6371 * arccos (Real.sin (fc.1 * π / 180) * Real.sin (tc.1 * π / 180) +
        Real.cos (fc.1 * π / 180) * Real.cos (tc.1 * π / 180) *
        Real.cos (tc.2 * π / 180 - fc.2 * π / 180)) := rfl
  rw [hdef]
  exact mul_pos (by norm_num) (Real.arccos_pos.mpr harg)

/-- C10: for every pair of known, distinct airports (valid coordinates) and
any departure time, `calculateFlightPath` succeeds with at least 5 entries,
strictly increasing timestamps, and an internal progress fraction strictly
increasing from 0 to 1. -/
theorem C10_path_monotone (fromA toA : String) (dep : ℝ) (fc tc : ℝ × ℝ)
    (hf : AIRPORTS.lookup (jsToUpperCase fromA) = some fc)
    (ht : AIRPORTS.lookup (jsToUpperCase toA) = some tc)
    (h1a : -90 < fc.1) (h1b : fc.1 < 90) (h2a : -90 < tc.1) (h2b : tc.1 < 90)
    (hlon : |tc.2 - fc.2| < 360) (hne : fc ≠ tc) :
    calculateFlightPath fromA toA dep = .ok (flightWaypoints fc tc dep) ∧
    5 ≤ (flightWaypoints fc tc dep).length ∧
    ((flightWaypoints fc tc dep).map Waypoint.time).Pairwise (· < ·) ∧
    (pathFractions fc tc).head? = some 0 ∧
    (pathFractions fc tc).getLast? = some 1 ∧
    (pathFractions fc tc).Pairwise (· < ·) := by
  have hdpos : 0 < distanceKm fc tc := distanceKm_pos fc tc h1a h1b h2a h2b hlon hne
  have hN5 : (5 : ℤ) ≤ numWaypoints fc tc := le_max_left _ _
  have hNnn : (0 : ℤ) ≤ numWaypoints fc tc := by linarith
  have hN0 : (0 : ℝ) < ((numWaypoints fc tc : ℤ) : ℝ) := by
    exact_mod_cast lt_of_lt_of_le (by norm_num) hN5
  have hfracs : (pathFractions fc tc).Pairwise (· < ·) := by
    unfold pathFractions
    refine List.Pairwise.map _ (fun i j hij => ?_)
      (List.pairwise_lt_range ((numWaypoints fc tc).toNat + 1))
    exact (div_lt_div_iff_of_pos_right hN0).mpr (by exact_mod_cast hij)
  refine ⟨?_, ?_, ?_, ?_, ?_, hfracs⟩
  · simp only [calculateFlightPath, hf, ht]
  · have hlen : (flightWaypoints fc tc dep).length = (numWaypoints fc tc).toNat + 1 := by
      rw [flightWaypoints, List.length_map, pathFractions, List.length_map,
        List.length_range]
    have h5 : 5 ≤ (numWaypoints fc tc).toNat := by
      have := Int.toNat_of_nonneg hNnn
      omega
    omega
  · rw [flightWaypoints, List.map_map]
    refine List.Pairwise.map _ (fun a b hab => ?_) hfracs
    show dep + a * (distanceKm fc tc / 800) * 60 * 60 * 1000 <
      dep + b * (distanceKm fc tc / 800) * 60 * 60 * 1000
    have hK : 0 < distanceKm fc tc / 800 * 60 * 60 * 1000 := by positivity
    nlinarith [mul_pos (sub_pos.mpr hab) hK]
  · rw [pathFractions,
      show (numWaypoints fc tc).toNat + 1 = Nat.succ (numWaypoints fc tc).toNat from rfl,
      List.range_succ_eq_map]
    simp
  · rw [pathFractions,
      show (numWaypoints fc tc).toNat + 1 = Nat.succ (numWaypoints fc tc).toNat from rfl,
      List.range_succ, List.map_append]
    simp only [List.map_cons, List.map_nil]
    rw [List.getLast?_concat]
    have hcast : (((numWaypoints fc tc).toNat : ℕ) : ℝ) =
        ((numWaypoints fc tc : ℤ) : ℝ) := by
      rw [show (((numWaypoints fc tc).toNat : ℕ) : ℝ) =
        (((numWaypoints fc tc).toNat : ℤ) : ℝ) by push_cast; ring]
      rw [Int.toNat_of_nonneg hNnn]
    simp only [List.map_cons, List.map_nil, hcast]
    rw [div_self (ne_of_gt hN0)]

/-- Witness for C10 at DEL → JAI, departure 0. -/
theorem C10_witness :
    AIRPORTS.lookup (jsToUpperCase "DEL") = some (28.5562, 77.1000) ∧
    ((28.5562 : ℝ), (77.1000 : ℝ)) ≠ (26.8282, 75.8056) ∧
    (calculateFlightPath "DEL" "JAI" 0 =
      .ok (flightWaypoints (28.5562, 77.1000) (26.8282, 75.8056) 0) ∧
    5 ≤ (flightWaypoints (28.5562, 77.1000) (26.8282, 75.8056) 0).length ∧
    ((flightWaypoints (28.5562, 77.1000) (26.8282, 75.8056) 0).map
      Waypoint.time).Pairwise (· < ·) ∧
    (pathFractions (28.5562, 77.1000) (26.8282, 75.8056)).head? = some 0 ∧
    (pathFractions (28.5562, 77.1000) (26.8282, 75.8056)).getLast? = some 1 ∧
    (pathFractions (28.5562, 77.1000) (26.8282, 75.8056)).Pairwise (· < ·)) :=
  ⟨rfl, by norm_num [Prod.ext_iff],
   C10_path_monotone "DEL" "JAI" 0 (28.5562, 77.1000) (26.8282, 75.8056) rfl rfl
     (by norm_num) (by norm_num) (by norm_num) (by norm_num)
     (by rw [abs_lt]; constructor <;> norm_num)
     (by norm_num [Prod.ext_iff])⟩

end ScenicView
